import Mathlib

/-!
Verification of the AnalysisClient of the Plant Disease Detection app
(`src/main.py`) via a shallow embedding.

The embedding mirrors:
  - the JSON values Python's `json` module produces (`Json`);
  - Python subscripting `x[k]` / `x[i]` with its exception behaviour
    (`pySubscriptStr`, `pySubscriptNat`, `PyExc`);
  - `base64.b64encode` (and its standard inverse `base64.b64decode`);
  - the function `analyze_plant_disease`, with the network modelled as an
    explicit `HttpOutcome` oracle and the session-held API key passed as a
    parameter; the function returns the list of HTTP requests it issued
    together with either the returned Python dict or an escaped exception.
-/

/-- A Python value as produced by `json.loads` / `response.json()`:
`None`, booleans, numbers (modelled as rationals), strings, lists, dicts. -/
inductive Json where
  | null : Json
  | bool (b : Bool) : Json
  | num (q : Rat) : Json
  | str (s : String) : Json
  | arr (xs : List Json) : Json
  | obj (fields : List (String × Json)) : Json

/-- A Python exception relevant to `analyze_plant_disease`, carrying the text
`str(e)` renders. `KeyError` and `IndexError` are caught by the inner handler
at `src/main.py:87`; `TypeError` is caught by neither handler. -/
inductive PyExc where
  | keyError (msg : String) : PyExc
  | indexError (msg : String) : PyExc
  | typeError (msg : String) : PyExc

/-- The text `str(e)` produces for the exception (Python renders
`KeyError(k)` as the repr of the key, which our constructors store). -/
def PyExc.toStr : PyExc → String
  | .keyError m => m
  | .indexError m => m
  | .typeError m => m

/-- Python `x[k]` for a string key `k`: dict lookup (raising `KeyError` with
the quoted key when absent); every non-dict value raises `TypeError`. -/
def pySubscriptStr : Json → String → Except PyExc Json
  | .obj fields, k =>
      match fields.lookup k with
      | some v => .ok v
      | none => .error (.keyError ("\x27" ++ k ++ "\x27"))
  | .str _, _ => .error (.typeError "string indices must be integers")
  | .arr _, _ =>
      .error (.typeError "list indices must be integers or slices, not str")
  | .null, _ => .error (.typeError "\x27NoneType\x27 object is not subscriptable")
  | .bool _, _ => .error (.typeError "\x27bool\x27 object is not subscriptable")
  | .num _, _ => .error (.typeError "\x27float\x27 object is not subscriptable")

/-- Python `x[i]` for an integer index `i ≥ 0`: list indexing (raising
`IndexError` when out of range), string indexing (one-character string, or
`IndexError`), dict lookup by the integer key (always a `KeyError` here since
JSON object keys are strings), `TypeError` otherwise. -/
def pySubscriptNat : Json → Nat → Except PyExc Json
  | .arr xs, i =>
      match xs.get? i with
      | some v => .ok v
      | none => .error (.indexError "list index out of range")
  | .str s, i =>
      match s.toList.get? i with
      | some c => .ok (.str (String.mk [c]))
      | none => .error (.indexError "string index out of range")
  | .obj _, i => .error (.keyError (toString i))
  | .null, _ => .error (.typeError "\x27NoneType\x27 object is not subscriptable")
  | .bool _, _ => .error (.typeError "\x27bool\x27 object is not subscriptable")
  | .num _, _ => .error (.typeError "\x27float\x27 object is not subscriptable")

/-- The extraction `result["candidates"][0]["content"]["parts"][0]["text"]`
performed at `src/main.py:85`, with Python exception propagation. -/
def extractText (result : Json) : Except PyExc Json := do
  let c ← pySubscriptStr result "candidates"
  let c0 ← pySubscriptNat c 0
  let content ← pySubscriptStr c0 "content"
  let parts ← pySubscriptStr content "parts"
  let p0 ← pySubscriptNat parts 0
  pySubscriptStr p0 "text"

/-- The dict `\x7b"success": True, "analysis": analysis\x7d` returned at
`src/main.py:86`. -/
def successDict (analysis : Json) : Json :=
  .obj [("success", .bool true), ("analysis", analysis)]

/-- The dict `\x7b"success": False, "error": msg\x7d` returned on every
failure path of `analyze_plant_disease`. -/
def failureDict (msg : String) : Json :=
  .obj [("success", .bool false), ("error", .str msg)]

/-- The constant `GEMINI_API_URL` of `src/main.py:21`. -/
def GEMINI_API_URL : String :=
  "https://generativelanguage.googleapis.com/v1beta/models/gemini-1.5-flash:generateContent"

/-- The prompt literal of `src/main.py:34`. -/
def prompt : String :=
  "\n    Analyze this plant image and provide the following information:\n    1. Plant identification (species and variety if possible)\n    2. Identify any diseases or issues present\n    3. Detailed diagnosis of the condition\n    4. Treatment recommendations and remedies\n    5. Prevention measures\n    6. Crop improvement suggestions\n    \n    Format your response in a structured way with clear headings.\n    "

/-- The request payload built at `src/main.py:47`. -/
def payload (image_data : String) : Json :=
  .obj
    [("contents", .arr
      [.obj [("parts", .arr
        [.obj [("text", .str prompt)],
         .obj [("inline_data", .obj
           [("mime_type", .str "image/jpeg"),
            ("data", .str image_data)])]])]]),
     ("generationConfig", .obj
       [("temperature", .num (2 / 10 : Rat)),
        ("topK", .num 40),
        ("topP", .num (95 / 100 : Rat)),
        ("maxOutputTokens", .num 1024)])]

/-- An HTTP request as issued by `requests.post` at `src/main.py:74`. -/
structure HttpRequest where
  method : String
  url : String
  headers : List (String × String)
  body : Json
  timeoutSeconds : Nat

/-- The single request `analyze_plant_disease` issues (`src/main.py:68`). -/
def mkRequest (image_data api_key : String) : HttpRequest :=
  { method := "POST"
  , url := GEMINI_API_URL ++ "?key=" ++ api_key
  , headers := [("Content-Type", "application/json"), ("x-goog-api-key", api_key)]
  , body := payload image_data
  , timeoutSeconds := 30 }

/-- The environment's answer to the HTTP POST: either a response carrying a
status code, the raw body text, and the result of `response.json()` (`.error`
meaning the body was not valid JSON, in which case `response.json()` raises a
`requests.exceptions.JSONDecodeError`, a `RequestException` subclass), or a
network-level `requests.exceptions.RequestException` (timeout, DNS failure,
connection reset) carrying `str(e)`. -/
inductive HttpOutcome where
  | response (status : Nat) (body : String) (jsonBody : Except String Json) : HttpOutcome
  | requestException (detail : String) : HttpOutcome

/-- Shallow embedding of `analyze_plant_disease` (`src/main.py:27`). The
session key is passed explicitly; `net` is the network oracle. Returns the
list of HTTP requests issued paired with either the returned dict (`.ok`) or
an exception that escaped to the caller (`.error`). -/
def analyze_plant_disease (image_data api_key : String) (net : HttpOutcome) :
    List HttpRequest × Except PyExc Json :=
  if api_key = "" then
    ([], .ok (failureDict
      "No Gemini API key provided. Please enter your API key in the sidebar."))
  else
    ([mkRequest image_data api_key],
      match net with
      | .requestException detail =>
          .ok (failureDict ("Request error: " ++ detail))
      | .response status body jsonBody =>
          if status = 200 then
            match jsonBody with
            | .error detail => .ok (failureDict ("Request error: " ++ detail))
            | .ok result =>
                match extractText result with
                | .ok analysis => .ok (successDict analysis)
                | .error (.keyError m) =>
                    .ok (failureDict ("Failed to parse Gemini response: " ++ m))
                | .error (.indexError m) =>
                    .ok (failureDict ("Failed to parse Gemini response: " ++ m))
                | .error e => .error e
          else
            .ok (failureDict
              ("Gemini API error: " ++ toString status ++ " - " ++ body)))

/-- The standard base64 alphabet (RFC 4648) used by `base64.b64encode`. -/
def b64Alphabet : List Char :=
  "ABCDEFGHIJKLMNOPQRSTUVWXYZabcdefghijklmnopqrstuvwxyz0123456789+/".toList

/-- The character the alphabet assigns to a six-bit value. -/
def encodeSextet (n : Nat) : Char := b64Alphabet.getD n "A".front

/-- Position of a character in the base64 alphabet, `none` when absent. -/
def decodeSextet (c : Char) : Option Nat :=
  let i := b64Alphabet.findIdx (fun d => d = c)
  if i < b64Alphabet.length then some i else none

/-- `base64.b64encode`, on bytes given as naturals below 256; produces the
character list of the ASCII result, with `=` padding (`src/main.py:25`). -/
def b64encode : List Nat → List Char
  | [] => []
  | [b1] =>
      [encodeSextet (b1 / 4), encodeSextet (b1 % 4 * 16), "=".front, "=".front]
  | [b1, b2] =>
      [encodeSextet (b1 / 4), encodeSextet (b1 % 4 * 16 + b2 / 16),
       encodeSextet (b2 % 16 * 4), "=".front]
  | b1 :: b2 :: b3 :: rest =>
      encodeSextet (b1 / 4) :: encodeSextet (b1 % 4 * 16 + b2 / 16) ::
      encodeSextet (b2 % 16 * 4 + b3 / 64) :: encodeSextet (b3 % 64) ::
      b64encode rest

/-- Modelled from the spec: `base64.b64decode`, the standard base64 decoder,
is not called anywhere in `src/` (the source only encodes); the round-trip
property of the spec names it, so it is embedded here per RFC 4648: quartets
of alphabet characters, with `=` padding allowed only in the final quartet. -/
def b64decode : List Char → Option (List Nat)
  | [] => some []
  | c1 :: c2 :: c3 :: c4 :: rest =>
      if rest = [] ∧ c3 = "=".front ∧ c4 = "=".front then do
        let s1 ← decodeSextet c1
        let s2 ← decodeSextet c2
        pure [s1 * 4 + s2 / 16]
      else if rest = [] ∧ c4 = "=".front then do
        let s1 ← decodeSextet c1
        let s2 ← decodeSextet c2
        let s3 ← decodeSextet c3
        pure [s1 * 4 + s2 / 16, s2 % 16 * 16 + s3 / 4]
      else do
        let s1 ← decodeSextet c1
        let s2 ← decodeSextet c2
        let s3 ← decodeSextet c3
        let s4 ← decodeSextet c4
        let tl ← b64decode rest
        pure ((s1 * 4 + s2 / 16) :: (s2 % 16 * 16 + s3 / 4) ::
              (s3 % 4 * 64 + s4) :: tl)
  | _ => none

/-- `encode_image_file` (`src/main.py:23`): base64-encode the uploaded
file's bytes and decode the ASCII bytes to a string. -/
def encode_image_file (bytes : List Nat) : String := String.mk (b64encode bytes)

/-- Every six-bit value decodes back from its alphabet character, and no
six-bit value encodes to the padding character. -/
theorem decodeSextet_encodeSextet :
    ∀ n : Fin 64,
      decodeSextet (encodeSextet n.val) = some n.val ∧
      encodeSextet n.val ≠ "=".front := by decide

theorem dec_enc {n : Nat} (h : n < 64) :
    decodeSextet (encodeSextet n) = some n :=
  (decodeSextet_encodeSextet ⟨n, h⟩).1

theorem enc_ne_pad {n : Nat} (h : n < 64) : encodeSextet n ≠ "=".front :=
  (decodeSextet_encodeSextet ⟨n, h⟩).2

/-- Decoding inverts encoding, for byte lists (each element below 256). -/
theorem b64decode_b64encode :
    ∀ bs : List Nat, (∀ b ∈ bs, b < 256) →
      b64decode (b64encode bs) = some bs
  | [], _ => rfl
  | [b1], h => by
      have hb1 : b1 < 256 := h b1 (by simp)
      simp only [b64encode, b64decode, reduceCtorEq, and_true, true_and,
        if_pos, dec_enc (show b1 / 4 < 64 by omega),
        dec_enc (show b1 % 4 * 16 < 64 by omega)]
      show some [b1 / 4 * 4 + b1 % 4 * 16 / 16] = some [b1]
      simp only [Option.some.injEq, List.cons.injEq, and_true]
      omega
  | [b1, b2], h => by
      have hb1 : b1 < 256 := h b1 (by simp)
      have hb2 : b2 < 256 := h b2 (by simp)
      have h3 : encodeSextet (b2 % 16 * 4) ≠ "=".front :=
        enc_ne_pad (by omega)
      simp only [b64encode, b64decode]
      rw [if_neg (fun hc => h3 hc.2.1), if_pos (by simp)]
      rw [dec_enc (show b1 / 4 < 64 by omega),
        dec_enc (show b1 % 4 * 16 + b2 / 16 < 64 by omega),
        dec_enc (show b2 % 16 * 4 < 64 by omega)]
      show some [b1 / 4 * 4 + (b1 % 4 * 16 + b2 / 16) / 16,
        (b1 % 4 * 16 + b2 / 16) % 16 * 16 + b2 % 16 * 4 / 4] = some [b1, b2]
      simp only [Option.some.injEq, List.cons.injEq, and_true]
      omega
  | b1 :: b2 :: b3 :: rest, h => by
      have hb1 : b1 < 256 := h b1 (by simp)
      have hb2 : b2 < 256 := h b2 (by simp)
      have hb3 : b3 < 256 := h b3 (by simp)
      have ih := b64decode_b64encode rest (fun b hb => h b (by simp [hb]))
      have h3 : encodeSextet (b2 % 16 * 4 + b3 / 64) ≠ "=".front :=
        enc_ne_pad (by omega)
      have h4 : encodeSextet (b3 % 64) ≠ "=".front := enc_ne_pad (by omega)
      simp only [b64encode, b64decode]
      rw [if_neg (fun hc => h3 hc.2.1), if_neg (fun hc => h4 hc.2)]
      rw [dec_enc (show b1 / 4 < 64 by omega),
        dec_enc (show b1 % 4 * 16 + b2 / 16 < 64 by omega),
        dec_enc (show b2 % 16 * 4 + b3 / 64 < 64 by omega),
        dec_enc (show b3 % 64 < 64 by omega)]
      show (b64decode (b64encode rest)).bind (fun tl =>
        some ((b1 / 4 * 4 + (b1 % 4 * 16 + b2 / 16) / 16) ::
          ((b1 % 4 * 16 + b2 / 16) % 16 * 16 + (b2 % 16 * 4 + b3 / 64) / 4) ::
          ((b2 % 16 * 4 + b3 / 64) % 4 * 64 + b3 % 64) :: tl)) =
        some (b1 :: b2 :: b3 :: rest)
      rw [ih]
      show some ((b1 / 4 * 4 + (b1 % 4 * 16 + b2 / 16) / 16) ::
          ((b1 % 4 * 16 + b2 / 16) % 16 * 16 + (b2 % 16 * 4 + b3 / 64) / 4) ::
          ((b2 % 16 * 4 + b3 / 64) % 4 * 64 + b3 % 64) :: rest) =
        some (b1 :: b2 :: b3 :: rest)
      simp only [Option.some.injEq, List.cons.injEq, and_true]
      omega

/-- The character list of an appended string is the appended character
lists (definitional, recorded for rewriting). -/
theorem toList_append (s t : String) : (s ++ t).toList = s.toList ++ t.toList :=
  rfl

/-- A well-formed 200-response body whose extracted text is
"Healthy tomato plant", used as a concrete test input. -/
def bodyHealthy : Json :=
  .obj [("candidates", .arr [.obj [("content", .obj [("parts", .arr
    [.obj [("text", .str "Healthy tomato plant")]])])]])]

/-- C1: on an HTTP 200 response whose JSON body yields a value at
`candidates[0].content.parts[0].text`, `analyze_plant_disease` returns the
success dict carrying exactly that value. -/
theorem C1_success_extracts_text (image_data api_key bodyText : String)
    (result v : Json) (hk : api_key ≠ "")
    (hx : extractText result = .ok v) :
    (analyze_plant_disease image_data api_key
        (.response 200 bodyText (.ok result))).2 = .ok (successDict v) := by
  simp only [analyze_plant_disease, if_neg hk, hx, if_true]

/-- C1 witness: a 200 response whose text field is "Healthy tomato plant"
yields success with exactly that text. -/
theorem C1_witness :
    (analyze_plant_disease "imagedata" "key123"
        (.response 200 "raw" (.ok bodyHealthy))).2 =
      .ok (successDict (.str "Healthy tomato plant")) :=
  C1_success_extracts_text "imagedata" "key123" "raw" bodyHealthy
    (.str "Healthy tomato plant") (by decide) rfl

set_option maxRecDepth 8000 in
/-- C2 counterexample: with an empty credential the code does short-circuit,
but the returned failure message is the sidebar instruction, which does not
contain the claimed text "missing credential". -/
theorem C2_counterexample :
    (analyze_plant_disease "imagedata" "" (.requestException "boom")).1 = [] ∧
    (analyze_plant_disease "imagedata" "" (.requestException "boom")).2 =
      .ok (failureDict
        "No Gemini API key provided. Please enter your API key in the sidebar.") ∧
    ¬ ("missing credential".toList <:+:
      "No Gemini API key provided. Please enter your API key in the sidebar.".toList) :=
  ⟨rfl, rfl, by decide⟩

/-- C2 amended: for every image input and network oracle, an empty credential
makes `analyze_plant_disease` return the failure dict with message "No Gemini
API key provided. Please enter your API key in the sidebar." and issue no
HTTP request. -/
theorem C2_empty_key_short_circuits (image_data : String) (net : HttpOutcome) :
    analyze_plant_disease image_data "" net =
      ([], .ok (failureDict
        "No Gemini API key provided. Please enter your API key in the sidebar.")) :=
  rfl

/-- C3 counterexample: a 200 response whose JSON lacks `candidates` yields
the message "Failed to parse Gemini response: 'candidates'", which does not
start with the claimed template "Failed to parse response: ". -/
theorem C3_counterexample :
    (analyze_plant_disease "imagedata" "key123"
        (.response 200 "raw" (.ok (Json.obj [])))).2 =
      .ok (failureDict "Failed to parse Gemini response: \x27candidates\x27") ∧
    ¬ ("Failed to parse response: ".toList <+:
      "Failed to parse Gemini response: \x27candidates\x27".toList) :=
  ⟨rfl, by decide⟩

/-- C3 amended: on a 200 response whose JSON traversal fails with a
`KeyError` or `IndexError` (absent key or out-of-range index),
`analyze_plant_disease` returns the failure dict with message
"Failed to parse Gemini response: " followed by the exception's text. -/
theorem C3_parse_failure_message (image_data api_key bodyText : String)
    (result : Json) (e : PyExc) (hk : api_key ≠ "")
    (hx : extractText result = .error e)
    (he : (∃ m, e = .keyError m) ∨ ∃ m, e = .indexError m) :
    (analyze_plant_disease image_data api_key
        (.response 200 bodyText (.ok result))).2 =
      .ok (failureDict ("Failed to parse Gemini response: " ++ e.toStr)) := by
  rcases he with ⟨m, rfl⟩ | ⟨m, rfl⟩ <;>
    simp only [analyze_plant_disease, if_neg hk, hx, if_true, PyExc.toStr]

/-- C3 witness: concrete 200 response missing `candidates`. -/
theorem C3_witness :
    (analyze_plant_disease "imagedata" "key123"
        (.response 200 "raw" (.ok (Json.obj [("other", Json.null)])))).2 =
      .ok (failureDict
        ("Failed to parse Gemini response: " ++
          (PyExc.keyError "\x27candidates\x27").toStr)) :=
  C3_parse_failure_message "imagedata" "key123" "raw"
    (Json.obj [("other", Json.null)]) (.keyError "\x27candidates\x27")
    (by decide) rfl (.inl ⟨_, rfl⟩)

/-- C4: on a non-200 status, `analyze_plant_disease` returns the failure
dict whose message is "Gemini API error: <status> - <body>"; that message
contains the template "API error: <status> - <body>", the status code's
decimal rendering, and the raw body, each as a contiguous substring. -/
theorem C4_non200_api_error (image_data api_key bodyText : String)
    (status : Nat) (jsonBody : Except String Json)
    (hk : api_key ≠ "") (hs : status ≠ 200) :
    (analyze_plant_disease image_data api_key
        (.response status bodyText jsonBody)).2 =
      .ok (failureDict
        ("Gemini API error: " ++ toString status ++ " - " ++ bodyText)) ∧
    (("API error: " ++ toString status ++ " - " ++ bodyText).toList <:+:
      ("Gemini API error: " ++ toString status ++ " - " ++ bodyText).toList) ∧
    ((toString status).toList <:+:
      ("Gemini API error: " ++ toString status ++ " - " ++ bodyText).toList) ∧
    (bodyText.toList <:+:
      ("Gemini API error: " ++ toString status ++ " - " ++ bodyText).toList) := by
  refine ⟨?_, ?_, ?_, ?_⟩
  · simp only [analyze_plant_disease, if_neg hk, if_neg hs]
  · refine ⟨"Gemini ".toList, [], ?_⟩
    simp only [toList_append, List.append_assoc, List.append_nil]
    rfl
  · refine ⟨"Gemini API error: ".toList, (" - " ++ bodyText).toList, ?_⟩
    simp only [toList_append, List.append_assoc]
  · refine ⟨("Gemini API error: " ++ toString status ++ " - ").toList, [], ?_⟩
    simp only [toList_append, List.append_assoc, List.append_nil]

/-- C4 witness: a 403 response with body "invalid key". -/
theorem C4_witness :
    (analyze_plant_disease "imagedata" "key123"
        (.response 403 "invalid key" (.error "nonjson"))).2 =
      .ok (failureDict
        ("Gemini API error: " ++ toString 403 ++ " - " ++ "invalid key")) ∧
    (("API error: " ++ toString 403 ++ " - " ++ "invalid key").toList <:+:
      ("Gemini API error: " ++ toString 403 ++ " - " ++ "invalid key").toList) ∧
    ((toString 403).toList <:+:
      ("Gemini API error: " ++ toString 403 ++ " - " ++ "invalid key").toList) ∧
    ("invalid key".toList <:+:
      ("Gemini API error: " ++ toString 403 ++ " - " ++ "invalid key").toList) :=
  C4_non200_api_error "imagedata" "key123" "invalid key" 403 (.error "nonjson")
    (by decide) (by decide)

/-- C5: on a network-level `RequestException` (timeout, DNS failure,
connection reset), `analyze_plant_disease` returns the failure dict whose
message is "Request error: " followed by the fault description, which it
therefore contains. -/
theorem C5_request_error (image_data api_key detail : String)
    (hk : api_key ≠ "") :
    (analyze_plant_disease image_data api_key (.requestException detail)).2 =
      .ok (failureDict ("Request error: " ++ detail)) ∧
    (detail.toList <:+: ("Request error: " ++ detail).toList) := by
  refine ⟨?_, ⟨"Request error: ".toList, [], ?_⟩⟩
  · simp only [analyze_plant_disease, if_neg hk]
  · simp only [toList_append, List.append_nil]

/-- C5 witness: a concrete connection-timeout fault description. -/
theorem C5_witness :
    (analyze_plant_disease "imagedata" "key123"
        (.requestException
          "HTTPSConnectionPool: Read timed out. (read timeout=30)")).2 =
      .ok (failureDict ("Request error: " ++
        "HTTPSConnectionPool: Read timed out. (read timeout=30)")) ∧
    ("HTTPSConnectionPool: Read timed out. (read timeout=30)".toList <:+:
      ("Request error: " ++
        "HTTPSConnectionPool: Read timed out. (read timeout=30)").toList) :=
  C5_request_error "imagedata" "key123"
    "HTTPSConnectionPool: Read timed out. (read timeout=30)" (by decide)

/-- C6 counterexample: a 200 response with ill-typed JSON body
`\x7b"candidates": null\x7d` makes the extraction raise a `TypeError`, which
neither `except (KeyError, IndexError)` nor
`except requests.exceptions.RequestException` catches, so it escapes to the
caller instead of being returned as a failure dict. -/
theorem C6_counterexample :
    (analyze_plant_disease "imagedata" "key123"
        (.response 200 "raw" (.ok (Json.obj [("candidates", Json.null)])))).2 =
      .error (.typeError "\x27NoneType\x27 object is not subscriptable") :=
  rfl

/-- C6 amended: for every input and provider response, either
`analyze_plant_disease` returns a result dict, or the escaping exception is a
`TypeError` arising from a 200 response whose JSON is ill-typed along the
`candidates[0].content.parts[0].text` path; `KeyError`/`IndexError` parse
failures, non-200 statuses, non-JSON bodies and network faults are all
returned as failure dicts. -/
theorem C6_no_exception_except_typeerror (image_data api_key : String)
    (net : HttpOutcome) :
    (∃ j, (analyze_plant_disease image_data api_key net).2 = .ok j) ∨
    ∃ m, (analyze_plant_disease image_data api_key net).2 =
      .error (.typeError m) := by
  unfold analyze_plant_disease
  split
  · exact .inl ⟨_, rfl⟩
  · split
    · exact .inl ⟨_, rfl⟩
    · split
      · split
        · exact .inl ⟨_, rfl⟩
        · split
          · exact .inl ⟨_, rfl⟩
          · exact .inl ⟨_, rfl⟩
          · exact .inl ⟨_, rfl⟩
          · rename_i epy hkey hidx hx
            cases epy with
            | keyError m => exact absurd rfl (hkey m)
            | indexError m => exact absurd rfl (hidx m)
            | typeError m => exact .inr ⟨m, rfl⟩
      · exact .inl ⟨_, rfl⟩

set_option maxRecDepth 16000 in
/-- C7: with a non-empty credential, `analyze_plant_disease` issues exactly
one HTTP POST to the `generateContent` endpoint: its URL is the
`generateContent` URL with the credential as the `key` query parameter, its
headers carry the JSON content type and the credential, its timeout is 30
seconds, and its JSON body embeds the six-point prompt, the inline base64
image data tagged `image/jpeg`, and the generation configuration
temperature=0.2, topK=40, topP=0.95, maxOutputTokens=1024. -/
theorem C7_single_post_request (image_data api_key : String)
    (net : HttpOutcome) (hk : api_key ≠ "") :
    (analyze_plant_disease image_data api_key net).1 =
      [{ method := "POST"
       , url := GEMINI_API_URL ++ "?key=" ++ api_key
       , headers := [("Content-Type", "application/json"),
                     ("x-goog-api-key", api_key)]
       , body := .obj
           [("contents", .arr
             [.obj [("parts", .arr
               [.obj [("text", .str prompt)],
                .obj [("inline_data", .obj
                  [("mime_type", .str "image/jpeg"),
                   ("data", .str image_data)])]])]]),
            ("generationConfig", .obj
              [("temperature", .num (2 / 10 : Rat)),
               ("topK", .num 40),
               ("topP", .num (95 / 100 : Rat)),
               ("maxOutputTokens", .num 1024)])]
       , timeoutSeconds := 30 }] ∧
    ("generateContent".toList <:+: GEMINI_API_URL.toList) := by
  constructor
  · simp only [analyze_plant_disease, if_neg hk]
    rfl
  · decide

/-- C7 witness: concrete credential and image data. -/
theorem C7_witness :
    (analyze_plant_disease "imagedata" "key123"
        (.requestException "boom")).1 =
      [{ method := "POST"
       , url := GEMINI_API_URL ++ "?key=" ++ "key123"
       , headers := [("Content-Type", "application/json"),
                     ("x-goog-api-key", "key123")]
       , body := .obj
           [("contents", .arr
             [.obj [("parts", .arr
               [.obj [("text", .str prompt)],
                .obj [("inline_data", .obj
                  [("mime_type", .str "image/jpeg"),
                   ("data", .str "imagedata")])]])]]),
            ("generationConfig", .obj
              [("temperature", .num (2 / 10 : Rat)),
               ("topK", .num 40),
               ("topP", .num (95 / 100 : Rat)),
               ("maxOutputTokens", .num 1024)])]
       , timeoutSeconds := 30 }] ∧
    ("generateContent".toList <:+: GEMINI_API_URL.toList) :=
  C7_single_post_request "imagedata" "key123" (.requestException "boom")
    (by decide)

/-- C8: base64-encoding a byte sequence as `encode_image_file` does and then
base64-decoding the resulting string reproduces the original bytes. -/
theorem C8_base64_roundtrip (bytes : List Nat) (h : ∀ b ∈ bytes, b < 256) :
    b64decode (encode_image_file bytes).toList = some bytes :=
  b64decode_b64encode bytes h

/-- C8 witness: the PNG magic bytes round-trip through base64. -/
theorem C8_witness :
    b64decode (encode_image_file [137, 80, 78, 71, 13, 10, 26, 10]).toList =
      some [137, 80, 78, 71, 13, 10, 26, 10] :=
  C8_base64_roundtrip [137, 80, 78, 71, 13, 10, 26, 10] (by decide)

/-- C9: `analyze_plant_disease` performs no validation of the image data:
for any image-data string (including empty or non-base64 text), a non-empty
credential leads to the single HTTP POST being issued, whose body is the
payload built around that string verbatim; there is no short-circuit. -/
theorem C9_no_image_validation (image_data api_key : String)
    (net : HttpOutcome) (hk : api_key ≠ "") :
    (analyze_plant_disease image_data api_key net).1 =
      [mkRequest image_data api_key] ∧
    (mkRequest image_data api_key).body = payload image_data := by
  refine ⟨?_, rfl⟩
  simp only [analyze_plant_disease, if_neg hk]

/-- C9 witness: the empty string and a non-base64 string are both sent. -/
theorem C9_witness :
    ((analyze_plant_disease "" "key123" (.requestException "boom")).1 =
        [mkRequest "" "key123"] ∧
      (mkRequest "" "key123").body = payload "") ∧
    ((analyze_plant_disease "%%%not base64%%%" "key123"
          (.requestException "boom")).1 =
        [mkRequest "%%%not base64%%%" "key123"] ∧
      (mkRequest "%%%not base64%%%" "key123").body =
        payload "%%%not base64%%%") :=
  ⟨C9_no_image_validation "" "key123" (.requestException "boom") (by decide),
   C9_no_image_validation "%%%not base64%%%" "key123"
     (.requestException "boom") (by decide)⟩

/-- C10: every dict `analyze_plant_disease` returns (as opposed to an
escaping exception) has exactly one of the two shapes: success `true` with
an `analysis` field and nothing else, or success `false` with an `error`
message and nothing else. -/
theorem C10_result_shape (image_data api_key : String) (net : HttpOutcome)
    (j : Json)
    (h : (analyze_plant_disease image_data api_key net).2 = .ok j) :
    (∃ a, j = Json.obj [("success", Json.bool true), ("analysis", a)]) ∨
    ∃ m, j = Json.obj [("success", Json.bool false), ("error", Json.str m)] := by
  unfold analyze_plant_disease at h
  split at h
  · exact .inr ⟨_, (Except.ok.inj h).symm⟩
  · split at h
    · exact .inr ⟨_, (Except.ok.inj h).symm⟩
    · split at h
      · split at h
        · exact .inr ⟨_, (Except.ok.inj h).symm⟩
        · split at h
          · exact .inl ⟨_, (Except.ok.inj h).symm⟩
          · exact .inr ⟨_, (Except.ok.inj h).symm⟩
          · exact .inr ⟨_, (Except.ok.inj h).symm⟩
          · exact Except.noConfusion h
      · exact .inr ⟨_, (Except.ok.inj h).symm⟩

/-- C10 witness: the empty-credential return has the failure shape. -/
theorem C10_witness :
    (∃ a, failureDict
        "No Gemini API key provided. Please enter your API key in the sidebar." =
      Json.obj [("success", Json.bool true), ("analysis", a)]) ∨
    ∃ m, failureDict
        "No Gemini API key provided. Please enter your API key in the sidebar." =
      Json.obj [("success", Json.bool false), ("error", Json.str m)] :=
  C10_result_shape "imagedata" "" (.requestException "boom") _ rfl
